import Mathlib

/-!
# Verification of the resilient streaming download core of cog-openai-clip

The core of this repository (spec §1) is a streaming download client built from a
backoff-policy family (`helpers/utils/retry.py`) and a download orchestrator
(`helpers/download/client.py`).  Those two implementation files are not part
of the source tree given here; only their test suites
(`src/test/test_retry.py`, `src/test/test_download_client.py`) are.  The
definitions below are therefore modelled from the spec (§3, §4.1–§4.4), with
every observable that the tests pin down — the default budget-exhausted
message `"Queue is full"`, the terminal message
`"Failed to download file after maximum retries"`, the total number of
streaming attempts equalling `max_retries` — taken from the tests, which are
repository source.

Randomness (the jitter sample) and time (the sleep) are made explicit: the
jitter drawn for an attempt is a parameter, and the delays slept are returned
as data (`RetryOutcome.sleeps`).  Delays are rationals.
-/

namespace CogClip

/-! ## Substring utility (used to state facts about error-message text) -/

/-- `segStarts xs ys = true` iff `ys` is a prefix of `xs` (on characters). -/
def segStarts : List Char → List Char → Bool
  | _, [] => true
  | [], _ :: _ => false
  | a :: as, b :: bs => a == b && segStarts as bs

/-- `segIn needle hay = true` iff `needle` occurs contiguously in `hay`. -/
def segIn (needle : List Char) : List Char → Bool
  | [] => needle.isEmpty
  | a :: as => segStarts (a :: as) needle || segIn needle as

/-- `strIncludes hay needle = true` iff `needle` is a substring of `hay`
(this is the check `pytest.raises(..., match=...)` performs on a plain
string pattern). -/
def strIncludes (hay needle : String) : Bool :=
  segIn needle.toList hay.toList

/-! ## Backoff policy (spec §4.1, `helpers/utils/retry.py`) -/

/-- Modelled from the spec: the backoff-kind selection of
`helpers/utils/retry.py` (absent from `src/`); the three members are named in
spec §3 BackoffSpec and imported by `src/test/test_retry.py` as `RetryType`. -/
inductive RetryType where
  | EXPONENTIAL
  | UNIFORM
  | CAPPED_EXPONENTIAL
deriving DecidableEq, Repr

/-- Modelled from the spec: §4.1 BackoffPolicy.  Given the retry index, the
base delay, the jitter sample actually drawn (spec: uniform in [0.8, 1.2])
and the optional `max_delay`, produce the delay in seconds, or `none` exactly
when CAPPED_EXPONENTIAL is requested without a `max_delay`:
 - EXPONENTIAL: `base_delay * 2^retry_index * jitter`, no upper bound;
 - UNIFORM: `base_delay * jitter`;
 - CAPPED_EXPONENTIAL: `min (base_delay * 2^retry_index * jitter) max_delay`. -/
def rawDelay (kind : RetryType) (retry_index : ℕ) (base_delay jitter : ℚ)
    (max_delay : Option ℚ) : Option ℚ :=
  match kind with
  | RetryType.EXPONENTIAL => some (base_delay * 2 ^ retry_index * jitter)
  | RetryType.UNIFORM => some (base_delay * jitter)
  | RetryType.CAPPED_EXPONENTIAL =>
      max_delay.map (fun m => min (base_delay * 2 ^ retry_index * jitter) m)

/-! ## Retry executor (spec §4.2, `helpers/utils/retry.py`) -/

/-- The two error outcomes of the retry executor (spec §7):
`budgetExhausted` once `retry_count >= max_retries`, `configError` for
CAPPED_EXPONENTIAL without `max_delay`. -/
inductive RetryError where
  | budgetExhausted (msg : String)
  | configError (msg : String)
deriving DecidableEq, Repr

/-- Modelled from the spec: the message of the budget-exhausted error of
`helpers/utils/retry.py` (absent from `src/`).  Spec §4.2: it incorporates
`error_label`/`error_detail` when supplied; the default text is pinned by
`src/test/test_retry.py::test_max_retries_exceeded`, which requires the
default message to match `"Queue is full"`. -/
def exhaustMessage (error_type error_message : Option String) : String :=
  match error_type, error_message with
  | some l, some d => l ++ ": " ++ d
  | some l, none => l
  | none, some d => d
  | none, none => "Queue is full"

/-- The configuration-error message; its text is pinned by
`src/test/test_retry.py::test_capped_exponential_missing_max_delay`
(`match="max_delay is required"`). -/
def configErrorMessage : String := "max_delay is required"

/-- One call to the retry executor: its result together with the list of
delays it slept (in order). -/
structure RetryOutcome where
  result : Except RetryError (Bool × ℕ)
  sleeps : List ℚ
deriving Repr

/-- Modelled from the spec: §4.2 `retry` of `helpers/utils/retry.py`
(absent from `src/`).  If `retry_count >= max_retries` it raises the
budget-exhausted error (no delay computed, no sleep); else it computes the
delay for the requested kind — failing with a configuration error, before
any sleep, when CAPPED_EXPONENTIAL lacks `max_delay` — sleeps exactly once
for that delay, and returns `(true, retry_count + 1)`.  The jitter sample
drawn by the backoff policy is the explicit final argument. -/
def retry (retry_count max_retries : ℕ) (base_delay : ℚ) (kind : RetryType)
    (max_delay : Option ℚ) (error_type error_message : Option String)
    (jitter : ℚ) : RetryOutcome :=
  if max_retries ≤ retry_count then
    { result := Except.error (RetryError.budgetExhausted
        (exhaustMessage error_type error_message)),
      sleeps := [] }
  else
    match rawDelay kind retry_count base_delay jitter max_delay with
    | none =>
        { result := Except.error (RetryError.configError configErrorMessage),
          sleeps := [] }
    | some d =>
        { result := Except.ok (true, retry_count + 1), sleeps := [d] }

/-! ## Streaming downloader and orchestrator (spec §4.3–§4.4,
`helpers/download/client.py`) -/

/-- What the server/transport does on one streaming attempt, as observed by
`download_file`: a transport-level error (connection failure, non-2xx,
abrupt termination), some other exception raised during the attempt (the
source catches a broad exception class, spec §9), or a response carrying an
optional declared `content-length` and a list of body-chunk sizes. -/
inductive AttemptOutcome where
  | transportError
  | otherFailure (kind : String)
  | response (contentLength : Option ℕ) (chunks : List ℕ)

/-- The per-attempt error kinds of spec §7: `transport` for TransportError,
`incomplete` for IncompleteTransferError, `other` for any other exception
raised during the attempt. -/
inductive DLError where
  | transport
  | incomplete
  | other (kind : String)
deriving DecidableEq, Repr

/-- Modelled from the spec: §4.3 `stream_once`, one streaming attempt of
`helpers/download/client.py` (absent from `src/`).  The body is streamed in
chunks, `bytes_written` accumulates the chunk sizes; if a content length was
declared and `bytes_written < content_length` the attempt fails as
incomplete; if no content length was declared, any amount received is
accepted as complete.  On success it returns `bytes_written`. -/
def attemptOnce : AttemptOutcome → Except DLError ℕ
  | AttemptOutcome.transportError => Except.error DLError.transport
  | AttemptOutcome.otherFailure k => Except.error (DLError.other k)
  | AttemptOutcome.response (some n) chunks =>
      if chunks.sum < n then Except.error DLError.incomplete
      else Except.ok chunks.sum
  | AttemptOutcome.response none chunks => Except.ok chunks.sum

/-- The terminal message of the download error; pinned by
`src/test/test_download_client.py::test_download_fails_after_max_retries`
(`match="Failed to download file after maximum retries"`). -/
def downloadFailedMessage : String :=
  "Failed to download file after maximum retries"

/-- Default retry budget of `download_file`: 4 attempts total
(spec §4.4 "1 initial + 3 retries"; the comment in
`test_download_fails_on_too_small_file` computes 1 + (MAX_RETRIES - 1) = 4). -/
def MAX_RETRIES : ℕ := 4

/-- Modelled from the spec: §4.4 DownloadOrchestrator loop of
`helpers/download/client.py` (absent from `src/`).  `remaining` is
`max_retries - retry_count`; while budget remains, one streaming attempt is
made (`idx` numbers the attempts, so a server is a function from attempt
index to outcome).  A clean, complete attempt returns `bytes_written`; on
any error the partial file is discarded and the retry executor advances
`retry_count` by one (spec §4.2 returns `(true, retry_count + 1)` since
`retry_count < max_retries` holds inside the loop).  Once the budget is
exhausted the terminal download error is raised.  The first component counts
the network calls (streaming attempts) made. -/
def downloadGo (server : ℕ → AttemptOutcome) (idx : ℕ) :
    ℕ → ℕ × Except String ℕ
  | 0 => (0, Except.error downloadFailedMessage)
  | r + 1 =>
    match attemptOnce (server idx) with
    | Except.ok written => (1, Except.ok written)
    | Except.error _ =>
        ((downloadGo server (idx + 1) r).1 + 1, (downloadGo server (idx + 1) r).2)

/-- Modelled from the spec: §6 public call surface
`download(url, extension, max_retries, ...)` of
`helpers/download/client.py` (absent from `src/`): run the orchestrator loop
from `retry_count = 0` with the given budget.  Returns the number of network
calls made together with either the bytes written of the accepted file or
the terminal error message. -/
def download_file (server : ℕ → AttemptOutcome) (max_retries : ℕ) :
    ℕ × Except String ℕ :=
  downloadGo server 0 max_retries

/-! ## Theorems -/

/-- Helper: when every attempt is a transport error, the orchestrator loop
makes exactly one network call per unit of remaining budget and ends with
the terminal download error. -/
theorem downloadGo_allFail (server : ℕ → AttemptOutcome)
    (h : ∀ i, server i = AttemptOutcome.transportError) :
    ∀ (r idx : ℕ),
      downloadGo server idx r = (r, Except.error downloadFailedMessage) := by
  intro r
  induction r with
  | zero => intro idx; rfl
  | succ r ih =>
      intro idx
      simp only [downloadGo, h idx, attemptOnce, ih (idx + 1)]

/-- C1: if a content length was declared and the stream yields exactly
`content_length` bytes with no transport error, `download_file` succeeds on
the first attempt, making exactly one network call; and an attempt is
treated as failed for incompleteness exactly when
`bytes_written < content_length`. -/
theorem C1_complete_stream_first_attempt (server : ℕ → AttemptOutcome)
    (n : ℕ) (chunks : List ℕ) (mr : ℕ)
    (h0 : server 0 = AttemptOutcome.response (some n) chunks)
    (h1 : chunks.sum = n) (hmr : 0 < mr) :
    download_file server mr = (1, Except.ok n)
      ∧ ∀ (m : ℕ) (cs : List ℕ),
          (attemptOnce (AttemptOutcome.response (some m) cs)
            = Except.error DLError.incomplete ↔ cs.sum < m) := by
  constructor
  · obtain ⟨r, rfl⟩ : ∃ r, mr = r + 1 := ⟨mr - 1, by omega⟩
    have ha : attemptOnce (server 0) = Except.ok n := by
      rw [h0]; simp [attemptOnce, h1]
    show downloadGo server 0 (r + 1) = (1, Except.ok n)
    simp only [downloadGo, ha]
  · intro m cs
    by_cases hc : cs.sum < m <;> simp [attemptOnce, hc]

/-- C1 witness at a server declaring length 5 and delivering chunks
[2, 3]. -/
theorem C1_witness :
    (List.sum [2, 3] = 5 ∧ 0 < 4)
      ∧ (download_file (fun _ => AttemptOutcome.response (some 5) [2, 3]) 4
            = (1, Except.ok 5)
          ∧ ∀ (m : ℕ) (cs : List ℕ),
              (attemptOnce (AttemptOutcome.response (some m) cs)
                = Except.error DLError.incomplete ↔ cs.sum < m)) :=
  ⟨⟨by decide, by decide⟩,
    C1_complete_stream_first_attempt
      (fun _ => AttemptOutcome.response (some 5) [2, 3]) 5 [2, 3] 4
      rfl (by decide) (by decide)⟩

/-- C2: against a server whose every attempt is a transport error,
`download_file` ends with the terminal download error after exactly
`max_retries` streaming attempts, for every `max_retries`; the message of
that error states that the maximum number of retries was reached. -/
theorem C2_all_attempts_fail_terminal (server : ℕ → AttemptOutcome)
    (h : ∀ i, server i = AttemptOutcome.transportError) (mr : ℕ) :
    download_file server mr = (mr, Except.error downloadFailedMessage)
      ∧ strIncludes downloadFailedMessage "maximum retries" = true :=
  ⟨downloadGo_allFail server h mr 0, by decide⟩

/-- C2 witness: `max_retries = 3` against an always-failing server makes
exactly 3 attempts. -/
theorem C2_witness :
    download_file (fun _ => AttemptOutcome.transportError) 3
        = (3, Except.error downloadFailedMessage)
      ∧ strIncludes downloadFailedMessage "maximum retries" = true :=
  C2_all_attempts_fail_terminal (fun _ => AttemptOutcome.transportError)
    (fun _ => rfl) 3

/-- C4: `download_file` catches every error raised during an attempt —
including arbitrary exception kinds, not only transport/incompleteness —
and schedules a retry for it while budget remains; once the budget is
exhausted the terminal error is raised. -/
theorem C4_any_exception_retried (server : ℕ → AttemptOutcome)
    (idx r : ℕ) (e : DLError)
    (h : attemptOnce (server idx) = Except.error e) :
    downloadGo server idx (r + 1)
        = ((downloadGo server (idx + 1) r).1 + 1,
            (downloadGo server (idx + 1) r).2)
      ∧ downloadGo server idx 0 = (0, Except.error downloadFailedMessage) :=
  ⟨by simp only [downloadGo, h], rfl⟩

/-- C4 witness at an attempt raising an arbitrary non-transport
exception kind. -/
theorem C4_witness :
    attemptOnce ((fun _ => AttemptOutcome.otherFailure "ValueError") 0)
        = Except.error (DLError.other "ValueError")
      ∧ (downloadGo (fun _ => AttemptOutcome.otherFailure "ValueError") 0 2
            = ((downloadGo (fun _ => AttemptOutcome.otherFailure "ValueError") 1 1).1 + 1,
                (downloadGo (fun _ => AttemptOutcome.otherFailure "ValueError") 1 1).2)
          ∧ downloadGo (fun _ => AttemptOutcome.otherFailure "ValueError") 0 0
            = (0, Except.error downloadFailedMessage)) :=
  ⟨rfl,
    C4_any_exception_retried (fun _ => AttemptOutcome.otherFailure "ValueError")
      0 1 (DLError.other "ValueError") rfl⟩

/-- C10: when the response declares no content length, `download_file`
accepts the result as complete after a single streamed pass, whatever the
number of bytes received, making exactly one network call. -/
theorem C10_no_content_length_single_pass (server : ℕ → AttemptOutcome)
    (chunks : List ℕ) (mr : ℕ)
    (h0 : server 0 = AttemptOutcome.response none chunks) (hmr : 0 < mr) :
    download_file server mr = (1, Except.ok chunks.sum) := by
  obtain ⟨r, rfl⟩ : ∃ r, mr = r + 1 := ⟨mr - 1, by omega⟩
  have ha : attemptOnce (server 0) = Except.ok chunks.sum := by rw [h0]; rfl
  show downloadGo server 0 (r + 1) = (1, Except.ok chunks.sum)
  simp only [downloadGo, ha]

/-- C10 witness at a length-less response delivering 7 bytes. -/
theorem C10_witness :
    0 < 4
      ∧ download_file (fun _ => AttemptOutcome.response none [7]) 4
          = (1, Except.ok (List.sum [7])) :=
  ⟨by decide,
    C10_no_content_length_single_pass
      (fun _ => AttemptOutcome.response none [7]) [7] 4 rfl (by decide)⟩

/-- C3 counterexample: with no `error_label`/`error_detail` supplied the
budget-exhausted error carries the message "Queue is full" (pinned by
`test_max_retries_exceeded`), which does not contain the phrase
"budget exhausted" — so the default message is not a "budget exhausted"
message as the claim states. -/
theorem C3_counterexample :
    (retry 3 3 1 RetryType.EXPONENTIAL none none none 1).result
        = Except.error (RetryError.budgetExhausted "Queue is full")
      ∧ strIncludes "Queue is full" "budget exhausted" = false :=
  ⟨rfl, by decide⟩

/-- C3 (amended): when the retry executor raises the budget-exhausted error
with no `error_label`/`error_detail` supplied, the message is the fixed
generic string "Queue is full"; when label and detail are supplied, the
message incorporates them. -/
theorem C3_default_message_amended (rc mr : ℕ) (h : mr ≤ rc) (b j : ℚ)
    (k : RetryType) (md : Option ℚ) :
    (retry rc mr b k md none none j).result
        = Except.error (RetryError.budgetExhausted "Queue is full")
      ∧ ∀ l d : String,
          (retry rc mr b k md (some l) (some d) j).result
            = Except.error (RetryError.budgetExhausted (l ++ ": " ++ d)) := by
  constructor
  · simp only [retry, if_pos h]; rfl
  · intro l d
    simp only [retry, if_pos h]; rfl

/-- C3 witness at `retry_count = max_retries = 3`. -/
theorem C3_witness :
    3 ≤ 3
      ∧ ((retry 3 3 1 RetryType.UNIFORM none none none 1).result
            = Except.error (RetryError.budgetExhausted "Queue is full")
          ∧ ∀ l d : String,
              (retry 3 3 1 RetryType.UNIFORM none (some l) (some d) 1).result
                = Except.error (RetryError.budgetExhausted (l ++ ": " ++ d))) :=
  ⟨by decide, C3_default_message_amended 3 3 (by decide) 1 1 RetryType.UNIFORM none⟩

/-- C5: whenever `retry_count >= max_retries`, the retry executor raises
the budget-exhausted error and performs no sleep; moreover the outcome does
not depend on the backoff parameters (base delay, kind, max delay, jitter),
so no backoff delay is ever computed. -/
theorem C5_budget_exhausted_no_sleep (rc mr : ℕ) (h : mr ≤ rc) (b j : ℚ)
    (k : RetryType) (md : Option ℚ) (l d : Option String) :
    retry rc mr b k md l d j
        = ⟨Except.error (RetryError.budgetExhausted (exhaustMessage l d)), []⟩
      ∧ retry rc mr b k md l d j = retry rc mr 0 RetryType.UNIFORM none l d 0 := by
  refine ⟨?_, ?_⟩ <;> simp only [retry, if_pos h]

/-- C5 witness at `retry_count = max_retries = 3`. -/
theorem C5_witness :
    3 ≤ 3
      ∧ (retry 3 3 1 RetryType.EXPONENTIAL (some 5) none (some "detail") 1
            = ⟨Except.error (RetryError.budgetExhausted
                (exhaustMessage none (some "detail"))), []⟩
          ∧ retry 3 3 1 RetryType.EXPONENTIAL (some 5) none (some "detail") 1
            = retry 3 3 0 RetryType.UNIFORM none none (some "detail") 0) :=
  ⟨by decide,
    C5_budget_exhausted_no_sleep 3 3 (by decide) 1 1 RetryType.EXPONENTIAL
      (some 5) none (some "detail")⟩

/-- C6: whenever `retry_count < max_retries` and the backoff spec is
well-formed (the policy yields a delay `d` for the requested kind), the
retry executor sleeps exactly once, for `d`, and returns
`(true, retry_count + 1)`. -/
theorem C6_proceed_sleep_once (rc mr : ℕ) (h : rc < mr) (b j : ℚ)
    (k : RetryType) (md : Option ℚ) (d : ℚ)
    (hd : rawDelay k rc b j md = some d) (l dt : Option String) :
    retry rc mr b k md l dt j = ⟨Except.ok (true, rc + 1), [d]⟩ := by
  simp only [retry, if_neg (Nat.not_le.mpr h), hd]

/-- C6 witness: the first retry with exponential backoff sleeps once for
`base_delay * 2^0 * jitter` and returns `(true, 1)`. -/
theorem C6_witness :
    (0 < 3 ∧ rawDelay RetryType.EXPONENTIAL 0 1 1 none = some (1 * 2 ^ 0 * 1))
      ∧ retry 0 3 1 RetryType.EXPONENTIAL none none none 1
          = ⟨Except.ok (true, 0 + 1), [1 * 2 ^ 0 * 1]⟩ :=
  ⟨⟨by decide, rfl⟩,
    C6_proceed_sleep_once 0 3 (by decide) 1 1 RetryType.EXPONENTIAL none
      (1 * 2 ^ 0 * 1) rfl none none⟩

/-- C7 counterexample: a CAPPED_EXPONENTIAL request without `max_delay`
made when `retry_count >= max_retries` fails with the budget-exhausted
error, not a configuration error (spec §4.2 checks the retry budget before
the backoff configuration), refuting "every request ... fails with a
configuration error". -/
theorem C7_counterexample :
    retry 3 3 1 RetryType.CAPPED_EXPONENTIAL none none none 1
        = ⟨Except.error (RetryError.budgetExhausted "Queue is full"), []⟩
      ∧ ∀ msg : String,
          (retry 3 3 1 RetryType.CAPPED_EXPONENTIAL none none none 1).result
            ≠ Except.error (RetryError.configError msg) := by
  refine ⟨rfl, fun msg hmsg => ?_⟩
  simp [retry, exhaustMessage] at hmsg

/-- C7 (amended): every request with retry budget remaining
(`retry_count < max_retries`) for CAPPED_EXPONENTIAL backoff without a
`max_delay` fails immediately with the configuration error and performs no
sleep. -/
theorem C7_config_error_amended (rc mr : ℕ) (h : rc < mr) (b j : ℚ)
    (l d : Option String) :
    retry rc mr b RetryType.CAPPED_EXPONENTIAL none l d j
        = ⟨Except.error (RetryError.configError configErrorMessage), []⟩ := by
  simp only [retry, if_neg (Nat.not_le.mpr h), rawDelay, Option.map_none']

/-- C7 witness at `retry_count = 0 < max_retries = 3`. -/
theorem C7_witness :
    0 < 3
      ∧ retry 0 3 1 RetryType.CAPPED_EXPONENTIAL none none none 1
          = ⟨Except.error (RetryError.configError configErrorMessage), []⟩ :=
  ⟨by decide, C7_config_error_amended 0 3 (by decide) 1 1 none none⟩

/-- C8: for every `retry_index` and positive `base_delay`, and every jitter
sample in [0.8, 1.2], the EXPONENTIAL delay equals
`base_delay * 2^retry_index * jitter`, lies in
`[0.8 * base_delay * 2^retry_index, 1.2 * base_delay * 2^retry_index]`, and
the family of such delays has no upper bound. -/
theorem C8_exponential_delay_bounds (i : ℕ) (b j : ℚ) (hb : 0 < b)
    (hj1 : 4 / 5 ≤ j) (hj2 : j ≤ 6 / 5) (md : Option ℚ) :
    rawDelay RetryType.EXPONENTIAL i b j md = some (b * 2 ^ i * j)
      ∧ b * 2 ^ i * (4 / 5) ≤ b * 2 ^ i * j
      ∧ b * 2 ^ i * j ≤ b * 2 ^ i * (6 / 5)
      ∧ ∀ M : ℚ, ∃ k : ℕ, M < b * 2 ^ k * j := by
  have hpos : (0 : ℚ) < b * 2 ^ i := by positivity
  refine ⟨rfl, ?_, ?_, ?_⟩
  · exact mul_le_mul_of_nonneg_left hj1 hpos.le
  · exact mul_le_mul_of_nonneg_left hj2 hpos.le
  · intro M
    have hj0 : (0 : ℚ) < j := lt_of_lt_of_le (by norm_num) hj1
    have hbj : (0 : ℚ) < b * j := mul_pos hb hj0
    obtain ⟨k, hk⟩ :=
      pow_unbounded_of_one_lt (M / (b * j)) (by norm_num : (1 : ℚ) < 2)
    refine ⟨k, ?_⟩
    calc M < 2 ^ k * (b * j) := (div_lt_iff₀ hbj).mp hk
      _ = b * 2 ^ k * j := by ring

/-- C8 witness at `retry_index = 0`, `base_delay = 1`, `jitter = 1`. -/
theorem C8_witness :
    ((0 : ℚ) < 1 ∧ (4 : ℚ) / 5 ≤ 1 ∧ (1 : ℚ) ≤ 6 / 5)
      ∧ (rawDelay RetryType.EXPONENTIAL 0 1 1 none = some (1 * 2 ^ 0 * 1)
          ∧ (1 : ℚ) * 2 ^ 0 * (4 / 5) ≤ 1 * 2 ^ 0 * 1
          ∧ (1 : ℚ) * 2 ^ 0 * 1 ≤ 1 * 2 ^ 0 * (6 / 5)
          ∧ ∀ M : ℚ, ∃ k : ℕ, M < 1 * 2 ^ k * 1) :=
  ⟨⟨by norm_num, by norm_num, by norm_num⟩,
    C8_exponential_delay_bounds 0 1 1 (by norm_num) (by norm_num)
      (by norm_num) none⟩

/-- C9: for every `retry_index`, `base_delay`, jitter sample and
`max_delay`, the CAPPED_EXPONENTIAL delay equals
`min (base_delay * 2^retry_index * jitter) max_delay` and is therefore
always at most `max_delay`. -/
theorem C9_capped_delay_bound (i : ℕ) (b j m : ℚ) :
    rawDelay RetryType.CAPPED_EXPONENTIAL i b j (some m)
        = some (min (b * 2 ^ i * j) m)
      ∧ min (b * 2 ^ i * j) m ≤ m :=
  ⟨rfl, min_le_right _ _⟩

end CogClip
